import Mathlib

/-!
Verification development for the shift clock-in/clock-out handoff ledger of
the ell-knowledge-garden plugin (src/shift-handoff.ts).

Modelling conventions:
* Timestamps are modelled as natural numbers: milliseconds since the Unix
  epoch.  The source stores `new Date().toISOString()` strings; at millisecond
  granularity the ISO string is an injective, order-preserving encoding of the
  instant, and every comparison or subtraction in the source goes through
  `moment` parsing back to the instant, so the Nat model is faithful.
  Calendar formatting assumes a UTC environment (the host `moment` formats in
  the local timezone).
* JavaScript truthiness on `currentUser : string | null` (`!settings.currentUser`)
  is modelled explicitly: both `null` and the empty string are falsy.
* `JSON.stringify` / `JSON.parse` on the fixed-shape `HandoffFormData` record
  are modelled by `serializeHandoff` / `parseHandoff` below, including JSON
  string escaping.
* The imperative functions mutate the settings object in place and `return`
  early on errors; they are modelled as pure transitions returning the new
  settings paired with an optional error, the error case returning the
  settings unchanged exactly as the early `return` leaves them.
-/

/-- Model of `interface LabMember` from src/shift-handoff.ts. -/
structure LabMember where
  name : String
  id : String
deriving DecidableEq

/-- Model of `interface ShiftSession` from src/shift-handoff.ts.  Timestamps are
milliseconds since epoch (see modelling conventions). -/
structure ShiftSession where
  userId : String
  clockInTime : Nat
  clockOutTime : Option Nat
  handoffNote : Option String
deriving DecidableEq

/-- Model of `interface PopupAcknowledgment` from src/shift-handoff.ts. -/
structure PopupAcknowledgment where
  popupId : String
  seenBy : List String
  createdAt : Nat
deriving DecidableEq

/-- Model of `interface ShiftHandoffSettings` from src/shift-handoff.ts. -/
structure ShiftHandoffSettings where
  labMembers : List LabMember
  currentUser : Option String
  activeSessions : List ShiftSession
  sessionHistory : List ShiftSession
  acknowledgments : List PopupAcknowledgment
  handoffFolder : String
deriving DecidableEq

/-- Model of `interface HandoffFormData` from src/shift-handoff.ts. -/
structure HandoffFormData where
  whatYouDid : String
  whatsRunning : String
  needsAttention : String
  tagNextPerson : String
  additionalNotes : String
deriving DecidableEq

/-! ## JSON serialization of `HandoffFormData`

`clockOut` stores `JSON.stringify(handoffData)`.  `JSON.stringify` on an
object whose five fields are strings emits the fields in insertion order and
escapes each string: `"` and `\` get a backslash, the named control escapes
`\b \t \n \f \r` are used where they exist, any other control character
(code point < 0x20) becomes `\u00XX` with lowercase hex digits. -/

/-- Lowercase hex digit, as produced by JavaScript number formatting. -/
def hexDig (n : Nat) : Char :=
  if n = 0 then '0' else if n = 1 then '1' else if n = 2 then '2'
  else if n = 3 then '3' else if n = 4 then '4' else if n = 5 then '5'
  else if n = 6 then '6' else if n = 7 then '7' else if n = 8 then '8'
  else if n = 9 then '9' else if n = 10 then 'a' else if n = 11 then 'b'
  else if n = 12 then 'c' else if n = 13 then 'd' else if n = 14 then 'e'
  else 'f'

/-- Value of a hex digit accepted by `JSON.parse` (it accepts both cases). -/
def hexVal (c : Char) : Option Nat :=
  if 48 ≤ c.toNat ∧ c.toNat ≤ 57 then some (c.toNat - 48)
  else if 97 ≤ c.toNat ∧ c.toNat ≤ 102 then some (c.toNat - 87)
  else if 65 ≤ c.toNat ∧ c.toNat ≤ 70 then some (c.toNat - 55)
  else none

/-- JSON escaping of one character, as `JSON.stringify` does for string
values. -/
def jsonEscapeChar (c : Char) : List Char :=
  if c = '"' then ['\\', '"']
  else if c = '\\' then ['\\', '\\']
  else if c.toNat < 32 then
    if c = '\x08' then ['\\', 'b']
    else if c = '\t' then ['\\', 't']
    else if c = '\n' then ['\\', 'n']
    else if c = '\x0c' then ['\\', 'f']
    else if c = '\r' then ['\\', 'r']
    else ['\\', 'u', '0', '0', hexDig (c.toNat / 16), hexDig (c.toNat % 16)]
  else [c]

/-- JSON escaping of a whole string (as a character list). -/
def jsonEscapeList : List Char → List Char
  | [] => []
  | c :: cs => jsonEscapeChar c ++ jsonEscapeList cs

/-- Reader for a JSON string body: consumes characters up to and including the
closing quote, un-escaping as `JSON.parse` does, and returns the decoded
content together with the remaining input. -/
def readJsonString : List Char → Option (List Char × List Char)
  | [] => none
  | c :: rest =>
    if c = '"' then some ([], rest)
    else if c = '\\' then
      match rest with
      | [] => none
      | e :: rest2 =>
        if e = '"' then (readJsonString rest2).map fun p => ('"' :: p.1, p.2)
        else if e = '\\' then (readJsonString rest2).map fun p => ('\\' :: p.1, p.2)
        else if e = '/' then (readJsonString rest2).map fun p => ('/' :: p.1, p.2)
        else if e = 'b' then (readJsonString rest2).map fun p => ('\x08' :: p.1, p.2)
        else if e = 't' then (readJsonString rest2).map fun p => ('\t' :: p.1, p.2)
        else if e = 'n' then (readJsonString rest2).map fun p => ('\n' :: p.1, p.2)
        else if e = 'f' then (readJsonString rest2).map fun p => ('\x0c' :: p.1, p.2)
        else if e = 'r' then (readJsonString rest2).map fun p => ('\r' :: p.1, p.2)
        else if e = 'u' then
          match rest2 with
          | d1 :: d2 :: d3 :: d4 :: rest3 =>
            match hexVal d1, hexVal d2, hexVal d3, hexVal d4 with
            | some v1, some v2, some v3, some v4 =>
              (readJsonString rest3).map fun p =>
                (Char.ofNat (((v1 * 16 + v2) * 16 + v3) * 16 + v4) :: p.1, p.2)
            | _, _, _, _ => none
          | _ => none
        else none
    else (readJsonString rest).map fun p => (c :: p.1, p.2)
termination_by l => l.length
decreasing_by all_goals simp_arith [List.length]

/-- Consume an expected literal from the front of the input. -/
def dropLit : List Char → List Char → Option (List Char)
  | [], l => some l
  | _ :: _, [] => none
  | c :: cs, x :: xs => if x = c then dropLit cs xs else none

/-- The serialized form of `HandoffFormData`, character-list level:
`JSON.stringify` output for the five-string-field record, fields in
declaration order. -/
def serializeChars (d : HandoffFormData) : List Char :=
  "\x7b\"whatYouDid\":\"".data ++
    (jsonEscapeList d.whatYouDid.data ++ ('"' ::
  (",\"whatsRunning\":\"".data ++
    (jsonEscapeList d.whatsRunning.data ++ ('"' ::
  (",\"needsAttention\":\"".data ++
    (jsonEscapeList d.needsAttention.data ++ ('"' ::
  (",\"tagNextPerson\":\"".data ++
    (jsonEscapeList d.tagNextPerson.data ++ ('"' ::
  (",\"additionalNotes\":\"".data ++
    (jsonEscapeList d.additionalNotes.data ++ ('"' ::
  ['\x7d']))))))))))))))

/-- Serialization `JSON.stringify(handoffData)` as used in `clockOut`. -/
def serializeHandoff (d : HandoffFormData) : String :=
  String.mk (serializeChars d)

/-- Deserialization `JSON.parse` specialised to the serialized `HandoffFormData` shape,
character-list level. -/
def parseHandoffChars (l : List Char) : Option HandoffFormData :=
  (dropLit "\x7b\"whatYouDid\":\"".data l).bind fun l1 =>
  (readJsonString l1).bind fun p1 =>
  (dropLit ",\"whatsRunning\":\"".data p1.2).bind fun l2 =>
  (readJsonString l2).bind fun p2 =>
  (dropLit ",\"needsAttention\":\"".data p2.2).bind fun l3 =>
  (readJsonString l3).bind fun p3 =>
  (dropLit ",\"tagNextPerson\":\"".data p3.2).bind fun l4 =>
  (readJsonString l4).bind fun p4 =>
  (dropLit ",\"additionalNotes\":\"".data p4.2).bind fun l5 =>
  (readJsonString l5).bind fun p5 =>
  match p5.2 with
  | ['\x7d'] =>
    some ⟨String.mk p1.1, String.mk p2.1, String.mk p3.1, String.mk p4.1,
          String.mk p5.1⟩
  | _ => none

/-- Deserialization of a stored `handoffNote` string. -/
def parseHandoff (s : String) : Option HandoffFormData :=
  parseHandoffChars s.data

/-! ## Queries (src/shift-handoff.ts lines 144-182) -/

/-- Model of `isUserClockedIn` (lines 144-147).  `!settings.currentUser` is JavaScript
truthiness: both `null` and `""` short-circuit to `false`. -/
def isUserClockedIn (s : ShiftHandoffSettings) : Bool :=
  match s.currentUser with
  | none => false
  | some u => if u = "" then false
              else s.activeSessions.any fun sess => sess.userId == u

/-- Model of `getCurrentUserSession` (lines 149-152). -/
def getCurrentUserSession (s : ShiftHandoffSettings) : Option ShiftSession :=
  match s.currentUser with
  | none => none
  | some u => if u = "" then none
              else s.activeSessions.find? fun sess => sess.userId == u

/-- Model of `getMemberName` (lines 179-182): name of the member with the given id,
falling back to the raw id when no such member exists. -/
def getMemberName (s : ShiftHandoffSettings) (userId : String) : String :=
  match s.labMembers.find? (fun m => m.id == userId) with
  | some m => m.name
  | none => userId

/-- Model of `getSessionDuration` (lines 170-177) on the elapsed pair of instants:
`hours = Math.floor(duration.asHours())` is the total-hours count and
`mins = duration.minutes()` the minutes component. -/
def getSessionDuration (clockInTime now : Nat) : String :=
  let d := now - clockInTime
  toString (d / 3600000) ++ "h " ++ toString (d % 3600000 / 60000) ++ "m"

/-! ## Clock in / clock out (src/shift-handoff.ts lines 188-251) -/

inductive ClockInError
  | NotSetUp
  | AlreadyActive
deriving DecidableEq

inductive ClockOutError
  | NoActiveSession
deriving DecidableEq

/-- Model of `clockIn` (lines 188-216).  Returns the settings after the operation
together with the error reported, if any; an error leaves the settings as the
early `return` in the source does. -/
def clockIn (s : ShiftHandoffSettings) (now : Nat) :
    ShiftHandoffSettings × Option ClockInError :=
  match s.currentUser with
  | none => (s, some .NotSetUp)
  | some u =>
    if u = "" then (s, some .NotSetUp)
    else if isUserClockedIn s then (s, some .AlreadyActive)
    else
      ({ s with activeSessions := s.activeSessions ++
          [{ userId := u, clockInTime := now, clockOutTime := none,
             handoffNote := none }] }, none)

/-- The predicate `s.userId === settings.currentUser` of the `findIndex` in
`clockOut` (lines 224-226); a string never strictly equals `null`. -/
def matchesCurrent (cu : Option String) (sess : ShiftSession) : Bool :=
  match cu with
  | none => false
  | some u => sess.userId == u

/-- Behaviour of `findIndex` followed by `splice(index, 1)`: extract the first element
satisfying the predicate, returning it with the remaining list. -/
def extractFirst (p : ShiftSession → Bool) :
    List ShiftSession → Option (ShiftSession × List ShiftSession)
  | [] => none
  | x :: xs =>
    if p x then some (x, xs)
    else (extractFirst p xs).map fun q => (q.1, x :: q.2)

/-- The history bound of `clockOut` (lines 242-244): `slice(-100)` keeps the
last 100 elements when the length exceeds 100. -/
def trimHistory (l : List ShiftSession) : List ShiftSession :=
  if l.length > 100 then l.drop (l.length - 100) else l

/-- Model of `clockOut` (lines 218-251), ledger part: close the first active session of
the current user, move it to the (trimmed) history.  The handoff-document
write is a collaborator side effect modelled separately by
`genHandoffNote`. -/
def clockOut (s : ShiftHandoffSettings) (now : Nat) (d : HandoffFormData) :
    ShiftHandoffSettings × Option ClockOutError :=
  match extractFirst (matchesCurrent s.currentUser) s.activeSessions with
  | none => (s, some .NoActiveSession)
  | some (sess, remaining) =>
    let closed := { sess with clockOutTime := some now,
                              handoffNote := some (serializeHandoff d) }
    ({ s with activeSessions := remaining,
              sessionHistory := trimHistory (s.sessionHistory ++ [closed]) },
     none)

/-! ## Roster mutation (UserSetupModal lines 383-407, ManageMembersModal
lines 626-686) -/

inductive AddMemberError
  | InvalidInput
  | DuplicateId
deriving DecidableEq

/-- The add-member button logic (lines 668-686): trim the name, trim and
lowercase the id, reject empty fields and duplicate ids, else append. -/
def addMember (s : ShiftHandoffSettings) (rawName rawId : String) :
    ShiftHandoffSettings × Option AddMemberError :=
  let name := rawName.trim
  let id := rawId.trim.toLower
  if name = "" ∨ id = "" then (s, some .InvalidInput)
  else if s.labMembers.any (fun m => m.id == id) then (s, some .DuplicateId)
  else ({ s with labMembers := s.labMembers ++ [{ name := name, id := id }] },
        none)

/-- The remove button of `ManageMembersModal.render` (lines 630-640): splice
the member at the given index out of the roster and clear `currentUser` when
it referenced the id of the removed member. -/
def removeMember (s : ShiftHandoffSettings) (i : Nat) : ShiftHandoffSettings :=
  match s.labMembers[i]? with
  | none => s
  | some member =>
    { s with labMembers := s.labMembers.eraseIdx i,
             currentUser := if s.currentUser = some member.id then none
                            else s.currentUser }

/-! ## Handoff document generation (src/shift-handoff.ts lines 265-313)

`saveHandoffNote` builds a filename and a markdown body from the closed
session and the form data, then writes it via the vault collaborator.  The
pure content computation is modelled here; `moment` date formatting is
modelled for a UTC environment. -/

/-- Civil date from a count of days since 1970-01-01 (proleptic Gregorian),
returned as (year, month, day). -/
def daysToCivil (z : Nat) : Nat × Nat × Nat :=
  let era := (z + 719468) / 146097
  let doe := (z + 719468) % 146097
  let yoe := (doe - doe / 1460 + doe / 36524 - doe / 146096) / 365
  let y := yoe + era * 400
  let doy := doe - (365 * yoe + yoe / 4 - yoe / 100)
  let mp := (5 * doy + 2) / 153
  let d := doy - (153 * mp + 2) / 5 + 1
  let m := if mp < 10 then mp + 3 else mp - 9
  (if m ≤ 2 then y + 1 else y, m, d)

def pad2 (n : Nat) : String :=
  if n < 10 then "0" ++ toString n else toString n

def pad4 (n : Nat) : String :=
  if n < 10 then "000" ++ toString n
  else if n < 100 then "00" ++ toString n
  else if n < 1000 then "0" ++ toString n
  else toString n

def monthName (m : Nat) : String :=
  if m = 1 then "January" else if m = 2 then "February"
  else if m = 3 then "March" else if m = 4 then "April"
  else if m = 5 then "May" else if m = 6 then "June"
  else if m = 7 then "July" else if m = 8 then "August"
  else if m = 9 then "September" else if m = 10 then "October"
  else if m = 11 then "November" else "December"

/-- The moment format YYYY-MM-DD of an instant, in UTC. -/
def fmtYMD (ms : Nat) : String :=
  let c := daysToCivil (ms / 86400000)
  pad4 c.1 ++ "-" ++ pad2 c.2.1 ++ "-" ++ pad2 c.2.2

/-- The moment format HH-mm of an instant, in UTC. -/
def fmtHHmm (ms : Nat) : String :=
  pad2 (ms / 3600000 % 24) ++ "-" ++ pad2 (ms / 60000 % 60)

/-- The moment format MMMM D, YYYY of an instant, in UTC. -/
def fmtLongDate (ms : Nat) : String :=
  let c := daysToCivil (ms / 86400000)
  monthName c.2.1 ++ " " ++ toString c.2.2 ++ ", " ++ toString c.1

/-- The moment format h:mm A of an instant, in UTC. -/
def fmtHMA (ms : Nat) : String :=
  let h := ms / 3600000 % 24
  let h12 := if h % 12 = 0 then 12 else h % 12
  toString h12 ++ ":" ++ pad2 (ms / 60000 % 60) ++ " " ++
    (if h < 12 then "AM" else "PM")

/-- The duration line of the document:
the source formats the duration milliseconds via moment.utc with the
pattern H h m m, which renders them
as a UTC instant, so the hour is the hour of day (mod 24) and the minute the
minute of hour. -/
def docDuration (ms : Nat) : String :=
  toString (ms / 3600000 % 24) ++ "h " ++ toString (ms / 60000 % 60) ++ "m"

/-- A generated handoff document: target path and markdown body. -/
structure HandoffDoc where
  filename : String
  content : String
deriving DecidableEq

/-- The pure content of `saveHandoffNote` (lines 265-313): filename from the
clock-out instant at minute granularity and the member name, body from the
fixed template with the `||`-fallback placeholders for empty fields.  A
`clockOutTime` of a closed session is always present; `getD 0` mirrors that the
source never calls this with an open session. -/
def genHandoffNote (s : ShiftHandoffSettings) (session : ShiftSession)
    (data : HandoffFormData) : HandoffDoc :=
  let userName := getMemberName s session.userId
  let tOut := session.clockOutTime.getD 0
  let filename := s.handoffFolder ++ "/" ++ fmtYMD tOut ++ "_" ++
    fmtHHmm tOut ++ "_" ++ userName ++ ".md"
  let durationStr := docDuration (tOut - session.clockInTime)
  let content :=
    "# Shift Handoff - " ++ userName ++
    "\n**Date:** " ++ fmtLongDate tOut ++
    "\n**Time:** " ++ fmtHMA session.clockInTime ++ " → " ++ fmtHMA tOut ++
    "\n**Duration:** " ++ durationStr ++
    "\n\n---\n\n## What I Did\n" ++
    (if data.whatYouDid = "" then "_No notes_" else data.whatYouDid) ++
    "\n\n## What\x27s Currently Running\n" ++
    (if data.whatsRunning = "" then "_Nothing noted_" else data.whatsRunning) ++
    "\n\n## Needs Attention\n" ++
    (if data.needsAttention = "" then "_Nothing urgent_" else data.needsAttention) ++
    "\n\n## Tagged for Next Shift\n" ++
    (if data.tagNextPerson = "" then "_No one tagged_"
     else "@" ++ data.tagNextPerson) ++
    "\n\n## Additional Notes\n" ++
    (if data.additionalNotes = "" then "_None_" else data.additionalNotes) ++
    "\n\n---\n_Generated by ELL Knowledge Builder Plugin_\n"
  { filename := filename, content := content }

/-- A one-member demonstration roster state used by concrete witnesses. -/
def demoState : ShiftHandoffSettings :=
  { labMembers := [{ name := "Jane Doe", id := "jd" }]
    currentUser := some "jd"
    activeSessions := []
    sessionHistory := []
    acknowledgments := []
    handoffFolder := "_lab-handoffs" }

/-- A state whose configured identity is not a roster member: the roster is
empty yet `currentUser` is set.  Used to refute C5 as stated. -/
def ghostState : ShiftHandoffSettings :=
  { labMembers := []
    currentUser := some "ghost"
    activeSessions := []
    sessionHistory := []
    acknowledgments := []
    handoffFolder := "_lab-handoffs" }

/-- All-empty handoff form. -/
def dBlank : HandoffFormData := ⟨"", "", "", "", ""⟩

/-- One clock-in/clock-out cycle at abstract times `2k` and `2k + 1`. -/
def cycleOnce (s : ShiftHandoffSettings) (k : Nat) : ShiftHandoffSettings :=
  (clockOut (clockIn s (2 * k)).1 (2 * k + 1) dBlank).1

/-- Iteration of `n` consecutive clock-in/clock-out cycles starting from `demoState`. -/
def runCycles : Nat → ShiftHandoffSettings
  | 0 => demoState
  | n + 1 => cycleOnce (runCycles n) n

/-- The closed record produced by the `k`-th cycle. -/
def recAt (k : Nat) : ShiftSession :=
  { userId := "jd", clockInTime := 2 * k, clockOutTime := some (2 * k + 1),
    handoffNote := some (serializeHandoff dBlank) }


/-! ## Lemmas: JSON roundtrip -/

theorem hexVal_hexDig (n : Nat) (h : n < 16) : hexVal (hexDig n) = some n := by
  interval_cases n <;> decide

theorem readJsonString_escape (s : List Char) (rest : List Char) :
    readJsonString (jsonEscapeList s ++ '"' :: rest) = some (s, rest) := by
  induction s with
  | nil =>
    rw [show jsonEscapeList [] = [] from rfl, List.nil_append,
      readJsonString.eq_def]
    simp
  | cons c cs ih =>
    rw [show jsonEscapeList (c :: cs) = jsonEscapeChar c ++ jsonEscapeList cs
        from rfl, List.append_assoc]
    by_cases hq : c = '"'
    · subst hq
      rw [(by decide : jsonEscapeChar '"' = ['\\', '"']), List.cons_append,
        List.cons_append, List.nil_append, readJsonString.eq_def]
      simp [ih]
    · by_cases hb : c = '\\'
      · subst hb
        rw [(by decide : jsonEscapeChar '\\' = ['\\', '\\']), List.cons_append,
          List.cons_append, List.nil_append, readJsonString.eq_def]
        simp [ih]
      · by_cases hc : c.toNat < 32
        · by_cases h8 : c = '\x08'
          · subst h8
            rw [(by decide : jsonEscapeChar '\x08' = ['\\', 'b']),
              List.cons_append, List.cons_append, List.nil_append,
              readJsonString.eq_def]
            simp [ih]
          · by_cases ht : c = '\t'
            · subst ht
              rw [(by decide : jsonEscapeChar '\t' = ['\\', 't']),
                List.cons_append, List.cons_append, List.nil_append,
                readJsonString.eq_def]
              simp [ih]
            · by_cases hn : c = '\n'
              · subst hn
                rw [(by decide : jsonEscapeChar '\n' = ['\\', 'n']),
                  List.cons_append, List.cons_append, List.nil_append,
                  readJsonString.eq_def]
                simp [ih]
              · by_cases hf : c = '\x0c'
                · subst hf
                  rw [(by decide : jsonEscapeChar '\x0c' = ['\\', 'f']),
                    List.cons_append, List.cons_append, List.nil_append,
                    readJsonString.eq_def]
                  simp [ih]
                · by_cases hr : c = '\r'
                  · subst hr
                    rw [(by decide : jsonEscapeChar '\r' = ['\\', 'r']),
                      List.cons_append, List.cons_append, List.nil_append,
                      readJsonString.eq_def]
                    simp [ih]
                  · have h0 : hexVal '0' = some 0 := by decide
                    have h1 : hexVal (hexDig (c.toNat / 16))
                        = some (c.toNat / 16) := hexVal_hexDig _ (by omega)
                    have h2 : hexVal (hexDig (c.toNat % 16))
                        = some (c.toNat % 16) := hexVal_hexDig _ (by omega)
                    simp only [jsonEscapeChar, if_neg hq, if_neg hb, if_pos hc,
                      if_neg h8, if_neg ht, if_neg hn, if_neg hf, if_neg hr]
                    rw [List.cons_append, List.cons_append, List.cons_append,
                      List.cons_append, List.cons_append, List.cons_append,
                      List.nil_append, readJsonString.eq_def]
                    simp [h0, h1, h2, ih]
                    conv_rhs => rw [← Char.ofNat_toNat c]
                    congr 1
                    omega
        · simp only [jsonEscapeChar, if_neg hq, if_neg hb, if_neg hc,
            List.cons_append, List.nil_append]
          rw [readJsonString.eq_def]
          simp [hq, hb, ih]

theorem dropLit_append (k r : List Char) : dropLit k (k ++ r) = some r := by
  induction k with
  | nil => simp [dropLit]
  | cons c cs ih => simp [dropLit, ih]

/-- Roundtrip: `JSON.parse` recovers exactly the form data that `JSON.stringify` stored,
for every `HandoffFormData`. -/
theorem parse_serialize (d : HandoffFormData) :
    parseHandoff (serializeHandoff d) = some d := by
  show parseHandoffChars (serializeChars d) = some d
  simp [parseHandoffChars, serializeChars, dropLit, readJsonString_escape]

/-! ## Lemmas: ledger operations -/

theorem isUserClockedIn_false (s : ShiftHandoffSettings) (u : String)
    (hcu : s.currentUser = some u) (hne : u ≠ "")
    (hact : ∀ x ∈ s.activeSessions, x.userId ≠ u) :
    isUserClockedIn s = false := by
  simp only [isUserClockedIn, hcu, if_neg hne]
  rw [List.any_eq_false]
  intro x hx
  simpa using hact x hx

theorem clockIn_success (s : ShiftHandoffSettings) (now : Nat) (u : String)
    (hcu : s.currentUser = some u) (hne : u ≠ "")
    (hnc : isUserClockedIn s = false) :
    clockIn s now = ({ s with activeSessions := s.activeSessions ++
      [{ userId := u, clockInTime := now, clockOutTime := none,
         handoffNote := none }] }, none) := by
  simp [clockIn, hcu, hne, hnc]

theorem extractFirst_eq_none (p : ShiftSession → Bool) (l : List ShiftSession)
    (h : ∀ x ∈ l, p x = false) : extractFirst p l = none := by
  induction l with
  | nil => rfl
  | cons x xs ih =>
    simp only [extractFirst, h x (List.mem_cons_self x xs),
      Bool.false_eq_true, if_false]
    rw [ih fun y hy => h y (List.mem_cons_of_mem x hy)]
    rfl

theorem extractFirst_append_last (p : ShiftSession → Bool)
    (l : List ShiftSession) (y : ShiftSession)
    (h : ∀ x ∈ l, p x = false) (hy : p y = true) :
    extractFirst p (l ++ [y]) = some (y, l) := by
  induction l with
  | nil => simp [extractFirst, hy]
  | cons x xs ih =>
    simp only [List.cons_append, extractFirst, h x (List.mem_cons_self x xs),
      Bool.false_eq_true, if_false, List.append_eq]
    rw [ih fun z hz => h z (List.mem_cons_of_mem x hz)]
    rfl

theorem extractFirst_sublist (p : ShiftSession → Bool)
    (l : List ShiftSession) (x : ShiftSession) (r : List ShiftSession)
    (h : extractFirst p l = some (x, r)) : r.Sublist l := by
  induction l generalizing x r with
  | nil => exact Option.noConfusion h
  | cons a as ih =>
    by_cases ha : p a
    · simp only [extractFirst, ha, if_true] at h
      cases h
      exact (List.sublist_cons_self a as)
    · simp only [extractFirst, ha, Bool.false_eq_true, if_false] at h
      match hrec : extractFirst p as with
      | none => rw [hrec] at h; simp at h
      | some q =>
        rw [hrec] at h
        simp only [Option.map_some'] at h
        cases h
        exact List.Sublist.cons₂ a (ih q.1 q.2 (by rw [hrec]))

theorem clockOut_success (s : ShiftHandoffSettings) (now : Nat)
    (d : HandoffFormData) (sess : ShiftSession) (remaining : List ShiftSession)
    (hex : extractFirst (matchesCurrent s.currentUser) s.activeSessions
      = some (sess, remaining)) :
    clockOut s now d =
      ({ s with
          activeSessions := remaining,
          sessionHistory := trimHistory (s.sessionHistory ++
            [{ sess with
                clockOutTime := some now,
                handoffNote := some (serializeHandoff d) }]) }, none) := by
  simp [clockOut, hex]

/-! ## Claim theorems -/

/-- C1.  Round trip: for every member `m` of the roster configured as the
current identity, with no active session for `m.id`, clocking in at `t1` and
out at `t2 > t1` with form data `d` succeeds, appends exactly one new closed
record to the (front-trimmed) session history whose clock-out instant exceeds
its clock-in instant and whose serialized handoff note deserializes back to
`d`, and leaves `m.id` absent from the active sessions. -/
theorem c1_round_trip (s0 : ShiftHandoffSettings) (m : LabMember)
    (d : HandoffFormData) (t1 t2 : Nat)
    (hm : m ∈ s0.labMembers) (hcu : s0.currentUser = some m.id)
    (hne : m.id ≠ "") (hact : ∀ x ∈ s0.activeSessions, x.userId ≠ m.id)
    (ht : t1 < t2) :
    (clockIn s0 t1).2 = none ∧
    (clockOut (clockIn s0 t1).1 t2 d).2 = none ∧
    ∃ rec : ShiftSession,
      (clockOut (clockIn s0 t1).1 t2 d).1.sessionHistory
        = trimHistory (s0.sessionHistory ++ [rec]) ∧
      rec.clockInTime = t1 ∧ rec.clockOutTime = some t2 ∧
      rec.clockInTime < t2 ∧
      rec.handoffNote = some (serializeHandoff d) ∧
      parseHandoff (serializeHandoff d) = some d ∧
      (clockOut (clockIn s0 t1).1 t2 d).1.activeSessions = s0.activeSessions ∧
      ∀ x ∈ (clockOut (clockIn s0 t1).1 t2 d).1.activeSessions,
        x.userId ≠ m.id := by
  have hci := clockIn_success s0 t1 m.id hcu hne
    (isUserClockedIn_false s0 m.id hcu hne hact)
  have hex : extractFirst (matchesCurrent ((clockIn s0 t1).1).currentUser)
      ((clockIn s0 t1).1).activeSessions
      = some ({ userId := m.id, clockInTime := t1, clockOutTime := none,
                handoffNote := none }, s0.activeSessions) := by
    rw [hci]
    show extractFirst (matchesCurrent s0.currentUser)
      (s0.activeSessions ++ [_]) = _
    rw [hcu]
    exact extractFirst_append_last _ _ _
      (fun x hx => by simp [matchesCurrent, hact x hx])
      (by simp [matchesCurrent])
  have hco := clockOut_success ((clockIn s0 t1).1) t2 d _ _ hex
  refine ⟨by rw [hci], by rw [hco], ?_⟩
  refine ⟨{ userId := m.id, clockInTime := t1, clockOutTime := some t2,
            handoffNote := some (serializeHandoff d) }, ?_, rfl, rfl, ht,
          rfl, parse_serialize d, ?_, ?_⟩
  · rw [hco, hci]
  · rw [hco]
  · rw [hco]
    intro x hx
    exact hact x hx

/-- Witness for C1 at a concrete state. -/
theorem c1_round_trip_witness :
    (⟨"Jane Doe", "jd"⟩ : LabMember) ∈ demoState.labMembers ∧
    (clockOut (clockIn demoState 10).1 25 ⟨"a", "b", "c", "", "e"⟩).2 = none ∧
    ∃ rec : ShiftSession,
      (clockOut (clockIn demoState 10).1 25
          ⟨"a", "b", "c", "", "e"⟩).1.sessionHistory
        = trimHistory (demoState.sessionHistory ++ [rec]) ∧
      rec.clockInTime = 10 ∧ rec.clockOutTime = some 25 := by
  have h := c1_round_trip demoState ⟨"Jane Doe", "jd"⟩ ⟨"a", "b", "c", "", "e"⟩
    10 25 (by decide) rfl (by decide) (by intro x hx; cases hx) (by decide)
  obtain ⟨-, h2, rec, hh, hin, hout, -, -, -, -, -⟩ := h
  exact ⟨by decide, h2, rec, hh, hin, hout⟩

/-- C4.  `clockOut` in a state with no active session for the configured
identity fails with `NoActiveSession` and returns the ledger unchanged:
active sessions and session history are exactly as before. -/
theorem c4_clockout_no_session (s : ShiftHandoffSettings) (now : Nat)
    (d : HandoffFormData)
    (h : ∀ x ∈ s.activeSessions, matchesCurrent s.currentUser x = false) :
    clockOut s now d = (s, some ClockOutError.NoActiveSession) ∧
    (clockOut s now d).1.activeSessions = s.activeSessions ∧
    (clockOut s now d).1.sessionHistory = s.sessionHistory := by
  have he := extractFirst_eq_none (matchesCurrent s.currentUser)
    s.activeSessions h
  refine ⟨by simp [clockOut, he], ?_, ?_⟩ <;> simp [clockOut, he]

/-- Witness for C4: clocking out of `demoState` (which has no active
sessions) fails and changes nothing. -/
theorem c4_clockout_no_session_witness :
    clockOut demoState 7 ⟨"", "", "", "", ""⟩
      = (demoState, some ClockOutError.NoActiveSession) ∧
    (clockOut demoState 7 ⟨"", "", "", "", ""⟩).1.activeSessions
      = demoState.activeSessions ∧
    (clockOut demoState 7 ⟨"", "", "", "", ""⟩).1.sessionHistory
      = demoState.sessionHistory :=
  c4_clockout_no_session demoState 7 ⟨"", "", "", "", ""⟩
    (by intro x hx; cases hx)

/-- C6.  `clockIn` error cases: with no identity configured it fails with
`NotSetUp`, and with the identity already clocked in it fails with
`AlreadyActive`; in both cases the settings (hence `activeSessions` and
`sessionHistory`) are returned unchanged. -/
theorem c6_clockin_errors (s : ShiftHandoffSettings) (now : Nat) :
    (s.currentUser = none →
      clockIn s now = (s, some ClockInError.NotSetUp)) ∧
    (isUserClockedIn s = true →
      clockIn s now = (s, some ClockInError.AlreadyActive)) := by
  constructor
  · intro h
    simp [clockIn, h]
  · intro h
    rcases hcu : s.currentUser with _ | u
    · unfold isUserClockedIn at h
      rw [hcu] at h
      simp at h
    · by_cases hu : u = ""
      · unfold isUserClockedIn at h
        rw [hcu] at h
        simp [hu] at h
      · simp [clockIn, hcu, hu, h]

/-- Witness for C6: the no-identity state and an already-active state. -/
theorem c6_clockin_errors_witness :
    clockIn { demoState with currentUser := none } 3
      = ({ demoState with currentUser := none }, some ClockInError.NotSetUp) ∧
    clockIn (clockIn demoState 1).1 3
      = ((clockIn demoState 1).1, some ClockInError.AlreadyActive) :=
  ⟨(c6_clockin_errors { demoState with currentUser := none } 3).1 rfl,
   (c6_clockin_errors (clockIn demoState 1).1 3).2 (by decide)⟩

/-- C10.  With `currentUser = null`, regardless of the active sessions, the
clocked-in query returns `false` and the current-user session lookup returns
nothing. -/
theorem c10_no_identity_queries (s : ShiftHandoffSettings)
    (h : s.currentUser = none) :
    isUserClockedIn s = false ∧ getCurrentUserSession s = none := by
  simp [isUserClockedIn, getCurrentUserSession, h]

/-- Witness for C10: a no-identity state with a nonempty active list. -/
theorem c10_no_identity_queries_witness :
    isUserClockedIn { demoState with
                      currentUser := none
                      activeSessions := [⟨"jd", 0, none, none⟩] } = false ∧
    getCurrentUserSession { demoState with
                            currentUser := none
                            activeSessions := [⟨"jd", 0, none, none⟩] }
      = none :=
  c10_no_identity_queries _ rfl

/-- Counterexample to C5 as stated: in a state whose configured identity
`"ghost"` is not a member id of the (empty) roster, `clockIn` nevertheless
succeeds and appends a session — the source performs no roster-membership
check. -/
theorem c5_counterexample :
    (ghostState.labMembers.all fun m => m.id ≠ "ghost") = true ∧
    ghostState.currentUser = some "ghost" ∧
    (clockIn ghostState 0).2 = none ∧
    (clockIn ghostState 0).1.activeSessions
      = [{ userId := "ghost", clockInTime := 0, clockOutTime := none,
           handoffNote := none }] := by
  refine ⟨by decide, rfl, ?_, ?_⟩ <;> decide

/-- C5 amended.  `clockIn` appends a new active session with
`clockInTime = now`, `clockOutTime` absent and `handoffNote` absent whenever
an identity is configured (non-null, non-empty) and that identity is not
already clocked in; roster membership of the identity is not checked by the
operation (it is an invariant maintained by the callers). -/
theorem c5_clockin_appends (s : ShiftHandoffSettings) (now : Nat) (u : String)
    (hcu : s.currentUser = some u) (hne : u ≠ "")
    (hnc : isUserClockedIn s = false) :
    (clockIn s now).2 = none ∧
    (clockIn s now).1.activeSessions = s.activeSessions ++
      [{ userId := u, clockInTime := now, clockOutTime := none,
         handoffNote := none }] := by
  rw [clockIn_success s now u hcu hne hnc]
  exact ⟨rfl, rfl⟩

/-- Witness for the amended C5, at the non-member `ghostState`. -/
theorem c5_clockin_appends_witness :
    (clockIn ghostState 4).2 = none ∧
    (clockIn ghostState 4).1.activeSessions = ghostState.activeSessions ++
      [{ userId := "ghost", clockInTime := 4, clockOutTime := none,
         handoffNote := none }] :=
  c5_clockin_appends ghostState 4 "ghost" rfl (by decide) (by decide)

/-- Counterexample to C8 as stated: at 25 hours elapsed (instants 0 and
90000000 ms) the status-bar rendering shows total hours (`25h 0m`) while the
duration line of the document, rendered through a UTC clock-time format, wraps
modulo 24 hours (`1h 0m`); the two renderings differ on the same pair of
instants. -/
theorem c8_counterexample :
    getSessionDuration 0 90000000 = "25h 0m" ∧
    docDuration (90000000 - 0) = "1h 0m" ∧
    getSessionDuration 0 90000000 ≠ docDuration (90000000 - 0) := by
  refine ⟨by decide, by decide, by decide⟩

/-- C8 amended.  For elapsed times under 24 hours the status-bar duration
string and the duration line of the document agree as functions of the clock-in
instant and the end instant (`clockOutTime` standing in for `now`). -/
theorem c8_duration_agree (t1 t2 : Nat) (hle : t1 ≤ t2)
    (hlt : t2 - t1 < 86400000) :
    getSessionDuration t1 t2 = docDuration (t2 - t1) := by
  have h1 : (t2 - t1) / 3600000 % 24 = (t2 - t1) / 3600000 := by omega
  have h2 : (t2 - t1) % 3600000 / 60000 = (t2 - t1) / 60000 % 60 := by omega
  simp only [getSessionDuration, docDuration]
  rw [h1, h2]

/-- Witness for the amended C8: the 90-minute example from the spec. -/
theorem c8_duration_agree_witness :
    getSessionDuration 0 5400000 = docDuration (5400000 - 0) :=
  c8_duration_agree 0 5400000 (by decide) (by decide)

/-- With distinct roster ids, removing the member at position `i` leaves no
member carrying the id of the removed one, so a name lookup finds nothing. -/
theorem find_eraseIdx_none (l : List LabMember) (i : Nat) (m : LabMember)
    (hnd : (l.map fun x => x.id).Nodup) (hg : l[i]? = some m) :
    (l.eraseIdx i).find? (fun x => x.id == m.id) = none := by
  induction l generalizing i with
  | nil => exact Option.noConfusion hg
  | cons a as ih =>
    rcases hnd with - | ⟨hna, hnd'⟩
    match i with
    | 0 =>
      rw [List.getElem?_cons_zero] at hg
      cases hg
      rw [List.eraseIdx_cons_zero]
      rw [List.find?_eq_none]
      intro x hx
      simp only [Bool.not_eq_true, beq_eq_false_iff_ne, ne_eq]
      intro hxe
      exact hna x.id (List.mem_map_of_mem (fun y => y.id) hx) hxe.symm
    | j + 1 =>
      rw [List.getElem?_cons_succ] at hg
      rw [List.eraseIdx_cons_succ, List.find?_cons]
      have hmem : m.id ∈ as.map fun x => x.id :=
        List.mem_map_of_mem (fun y => y.id) (List.getElem?_mem hg)
      have hne : (a.id == m.id) = false := by
        simp only [beq_eq_false_iff_ne, ne_eq]
        intro he
        exact hna m.id hmem he
      rw [hne]
      exact ih j hnd' hg

/-- Fallback of `getMemberName`: when no roster member carries the id, the
raw id is returned. -/
theorem getMemberName_eq_id (s : ShiftHandoffSettings) (uid : String)
    (h : s.labMembers.find? (fun x => x.id == uid) = none) :
    getMemberName s uid = uid := by
  unfold getMemberName
  rw [h]

/-- C9.  Removing the member at position `i` when it is the configured
identity clears `currentUser`, removes exactly that roster entry, leaves the
session history (with its original `userId`s) untouched, and a subsequent
name lookup for the orphaned id falls back to the raw id. -/
theorem c9_remove_member (s : ShiftHandoffSettings) (i : Nat) (m : LabMember)
    (hg : s.labMembers[i]? = some m) (hcu : s.currentUser = some m.id)
    (hnd : (s.labMembers.map fun x => x.id).Nodup) :
    (removeMember s i).currentUser = none ∧
    (removeMember s i).labMembers = s.labMembers.eraseIdx i ∧
    (removeMember s i).sessionHistory = s.sessionHistory ∧
    getMemberName (removeMember s i) m.id = m.id := by
  have hrm : removeMember s i =
      { s with labMembers := s.labMembers.eraseIdx i, currentUser := none } := by
    simp [removeMember, hg, hcu]
  rw [hrm]
  exact ⟨rfl, rfl, rfl,
    getMemberName_eq_id _ m.id (find_eraseIdx_none s.labMembers i m hnd hg)⟩

/-- Witness for C9: removing `"jd"` from `demoState` while `"jd"` is the
configured identity. -/
theorem c9_remove_member_witness :
    (removeMember demoState 0).currentUser = none ∧
    (removeMember demoState 0).labMembers = demoState.labMembers.eraseIdx 0 ∧
    (removeMember demoState 0).sessionHistory = demoState.sessionHistory ∧
    getMemberName (removeMember demoState 0) "jd" = "jd" :=
  c9_remove_member demoState 0 ⟨"Jane Doe", "jd"⟩ rfl rfl (by decide)

/-- Unfolding of `isUserClockedIn` with a configured identity. -/
theorem isUserClockedIn_eq (s : ShiftHandoffSettings) (u : String)
    (hcu : s.currentUser = some u) :
    isUserClockedIn s
      = if u = "" then false
        else s.activeSessions.any fun x => x.userId == u := by
  unfold isUserClockedIn
  rw [hcu]

/-- Inversion of a successful `clockIn`: an identity was configured,
non-empty, and not already clocked in. -/
theorem clockIn_success_inv (s : ShiftHandoffSettings) (now : Nat)
    (h : (clockIn s now).2 = none) :
    ∃ u, s.currentUser = some u ∧ u ≠ "" ∧ isUserClockedIn s = false := by
  match hcu : s.currentUser with
  | none =>
    unfold clockIn at h
    rw [hcu] at h
    exact absurd h (by simp)
  | some u =>
    by_cases hu : u = ""
    · unfold clockIn at h
      rw [hcu] at h
      simp [hu] at h
    · by_cases hic : isUserClockedIn s = true
      · unfold clockIn at h
        rw [hcu] at h
        simp [hu, hic] at h
      · exact ⟨u, rfl, hu, by simpa using hic⟩

/-- Appending a session for a user absent from the active list preserves
distinctness of the active user ids. -/
theorem nodup_map_append_single (l : List ShiftSession) (y : ShiftSession)
    (hnd : (l.map fun x => x.userId).Nodup)
    (h : ∀ x ∈ l, x.userId ≠ y.userId) :
    ((l ++ [y]).map fun x => x.userId).Nodup := by
  rw [List.map_append]
  simp only [List.nodup_append, List.map_cons, List.map_nil]
  refine ⟨hnd, List.nodup_singleton _, ?_⟩
  intro a ha hb
  simp only [List.mem_singleton] at hb
  obtain ⟨x, hx, hxa⟩ := List.mem_map.mp ha
  exact h x hx (by rw [hxa, hb])

/-- C3.  At most one active session per user id (no duplicate `userId` among
`activeSessions`) is preserved by every ledger operation — `clockIn`,
`clockOut`, `addMember`, `removeMember` — and a second immediate `clockIn`
after a successful one is rejected with `AlreadyActive`, leaving the state
unchanged. -/
theorem c3_single_active :
    (∀ (s : ShiftHandoffSettings) (now : Nat),
      (s.activeSessions.map fun x => x.userId).Nodup →
      (((clockIn s now).1.activeSessions.map fun x => x.userId).Nodup)) ∧
    (∀ (s : ShiftHandoffSettings) (now : Nat) (d : HandoffFormData),
      (s.activeSessions.map fun x => x.userId).Nodup →
      (((clockOut s now d).1.activeSessions.map fun x => x.userId).Nodup)) ∧
    (∀ (s : ShiftHandoffSettings) (nm uid : String),
      (s.activeSessions.map fun x => x.userId).Nodup →
      (((addMember s nm uid).1.activeSessions.map fun x => x.userId).Nodup)) ∧
    (∀ (s : ShiftHandoffSettings) (i : Nat),
      (s.activeSessions.map fun x => x.userId).Nodup →
      (((removeMember s i).activeSessions.map fun x => x.userId).Nodup)) ∧
    (∀ (s : ShiftHandoffSettings) (t1 t2 : Nat),
      (clockIn s t1).2 = none →
      clockIn (clockIn s t1).1 t2
        = ((clockIn s t1).1, some ClockInError.AlreadyActive)) := by
  refine ⟨?_, ?_, ?_, ?_, ?_⟩
  · intro s now hnd
    match hcu : s.currentUser with
    | none => simpa [clockIn, hcu] using hnd
    | some u =>
      by_cases hu : u = ""
      · simpa [clockIn, hcu, hu] using hnd
      · by_cases hic : isUserClockedIn s = true
        · simpa [clockIn, hcu, hu, hic] using hnd
        · have hic' : isUserClockedIn s = false := by simpa using hic
          rw [clockIn_success s now u hcu hu hic']
          have hnotin : ∀ x ∈ s.activeSessions, x.userId ≠ u := by
            rw [isUserClockedIn_eq s u hcu, if_neg hu,
              List.any_eq_false] at hic'
            intro x hx
            simpa using hic' x hx
          exact nodup_map_append_single s.activeSessions _ hnd hnotin
  · intro s now d hnd
    match hex : extractFirst (matchesCurrent s.currentUser) s.activeSessions with
    | none => simpa [clockOut, hex] using hnd
    | some q =>
      rw [clockOut_success s now d q.1 q.2 (by rw [hex])]
      exact List.Nodup.sublist
        (List.Sublist.map _ (extractFirst_sublist _ _ q.1 q.2 (by rw [hex])))
        hnd
  · intro s nm uid hnd
    have hact : (addMember s nm uid).1.activeSessions = s.activeSessions := by
      simp only [addMember]
      split
      · rfl
      · split
        · rfl
        · rfl
    rw [hact]
    exact hnd
  · intro s i hnd
    have hact : (removeMember s i).activeSessions = s.activeSessions := by
      unfold removeMember
      split
      · rfl
      · rfl
    rw [hact]
    exact hnd
  · intro s t1 t2 h
    obtain ⟨u, hcu, hu, hic⟩ := clockIn_success_inv s t1 h
    have hcu1 : (clockIn s t1).1.currentUser = some u := by
      rw [clockIn_success s t1 u hcu hu hic]
      exact hcu
    have hmem : ∃ x ∈ (clockIn s t1).1.activeSessions, x.userId = u := by
      rw [clockIn_success s t1 u hcu hu hic]
      exact ⟨_, List.mem_append_right _ (List.mem_singleton_self _), rfl⟩
    have hic1 : isUserClockedIn (clockIn s t1).1 = true := by
      rw [isUserClockedIn_eq (clockIn s t1).1 u hcu1, if_neg hu,
        List.any_eq_true]
      obtain ⟨x, hx, hxu⟩ := hmem
      exact ⟨x, hx, by simp [hxu]⟩
    have key : ∀ s1 : ShiftHandoffSettings, s1.currentUser = some u →
        isUserClockedIn s1 = true →
        clockIn s1 t2 = (s1, some ClockInError.AlreadyActive) := by
      intro s1 hcu1' hic1'
      unfold clockIn
      rw [hcu1']
      simp [hu, hic1']
    exact key _ hcu1 hic1

/-- Witness for C3: each preservation statement applied at a concrete
state, and the rejected duplicate clock-in. -/
theorem c3_single_active_witness :
    (((clockIn demoState 0).1.activeSessions.map fun x => x.userId).Nodup) ∧
    (((clockOut demoState 0 ⟨"", "", "", "", ""⟩).1.activeSessions.map
        fun x => x.userId).Nodup) ∧
    (((addMember demoState "Al B" "ab").1.activeSessions.map
        fun x => x.userId).Nodup) ∧
    (((removeMember demoState 0).activeSessions.map
        fun x => x.userId).Nodup) ∧
    clockIn (clockIn demoState 1).1 2
      = ((clockIn demoState 1).1, some ClockInError.AlreadyActive) :=
  ⟨c3_single_active.1 demoState 0 (by decide),
   c3_single_active.2.1 demoState 0 ⟨"", "", "", "", ""⟩ (by decide),
   c3_single_active.2.2.1 demoState "Al B" "ab" (by decide),
   c3_single_active.2.2.2.1 demoState 0 (by decide),
   c3_single_active.2.2.2.2 demoState 1 2 (by decide)⟩

/-! ## The 105-cycle history-bound scenario (C2) -/

theorem length_trimHistory (l : List ShiftSession) :
    (trimHistory l).length = if l.length > 100 then 100 else l.length := by
  unfold trimHistory
  split
  · rw [List.length_drop]
    omega
  · rfl

/-- The trimming step of the history recurrence: appending the `n`-th record
to the trimmed first `n` records gives the trimmed first `n + 1` records. -/
theorem trim_step (n : Nat) :
    trimHistory ((((List.range n).map recAt).drop (n - 100)) ++ [recAt n])
      = ((List.range (n + 1)).map recAt).drop (n + 1 - 100) := by
  have hmap : (List.range (n + 1)).map recAt
      = (List.range n).map recAt ++ [recAt n] := by
    rw [List.range_succ, List.map_append]
    rfl
  have hlen : ((((List.range n).map recAt).drop (n - 100)) ++ [recAt n]).length
      = n - (n - 100) + 1 := by
    rw [List.length_append, List.length_drop, List.length_map,
      List.length_range]
    rfl
  by_cases hn : n < 100
  · have h0 : n - 100 = 0 := by omega
    have h1 : n + 1 - 100 = 0 := by omega
    rw [h0, h1, List.drop_zero, List.drop_zero, hmap]
    unfold trimHistory
    rw [if_neg (by
      simp only [List.length_append, List.length_map, List.length_range,
        List.length_cons, List.length_nil]
      omega)]
  · have hgt : ((((List.range n).map recAt).drop (n - 100))
        ++ [recAt n]).length > 100 := by
      rw [hlen]; omega
    unfold trimHistory
    rw [if_pos hgt, hlen]
    have hd : (((List.range n).map recAt).drop (n - 100)) ++ [recAt n]
        = (((List.range n).map recAt) ++ [recAt n]).drop (n - 100) := by
      rw [List.drop_append_of_le_length]
      rw [List.length_map, List.length_range]
      omega
    rw [hd]
    rw [← hmap]
    rw [List.drop_drop]
    have hc : n - 100 + (n - (n - 100) + 1 - 100) = n + 1 - 100 := by omega
    rw [hc]

/-- One cycle on a demo-roster state only replaces the session history by its
trimmed extension with the record of the cycle. -/
theorem cycleOnce_demo (H : List ShiftSession) (k : Nat) :
    cycleOnce { demoState with sessionHistory := H } k
      = { demoState with sessionHistory := trimHistory (H ++ [recAt k]) } := by
  have h1 := clockIn_success { demoState with sessionHistory := H } (2 * k)
    "jd" rfl (by decide) rfl
  unfold cycleOnce
  rw [h1]
  have hex : extractFirst (matchesCurrent (some "jd"))
      (({ demoState with sessionHistory := H } :
          ShiftHandoffSettings).activeSessions ++
        [{ userId := "jd", clockInTime := 2 * k, clockOutTime := none,
           handoffNote := none }])
      = some ({ userId := "jd", clockInTime := 2 * k, clockOutTime := none,
                handoffNote := none }, []) := rfl
  rw [clockOut_success _ (2 * k + 1) dBlank _ _ hex]
  rfl

/-- Closed form of `runCycles`: the history holds the most recent (at most
100) cycle records, in order. -/
theorem runCycles_eq (n : Nat) :
    runCycles n
      = { demoState with
          sessionHistory := ((List.range n).map recAt).drop (n - 100) } := by
  induction n with
  | zero => rfl
  | succ n ih =>
    rw [show runCycles (n + 1) = cycleOnce (runCycles n) n from rfl, ih,
      cycleOnce_demo, trim_step]

/-- C2.  Every ledger operation preserves the bound
`sessionHistory.length ≤ 100`; a clock-out that would push the history past
100 drops the oldest entries keeping the most recent 100 in order; 105
clock-in/clock-out cycles leave exactly the most recent 100 records in their
original chronological order. -/
theorem c2_history_bound :
    (∀ (s : ShiftHandoffSettings) (now : Nat),
      s.sessionHistory.length ≤ 100 →
      (clockIn s now).1.sessionHistory.length ≤ 100) ∧
    (∀ (s : ShiftHandoffSettings) (now : Nat) (d : HandoffFormData),
      s.sessionHistory.length ≤ 100 →
      (clockOut s now d).1.sessionHistory.length ≤ 100) ∧
    (∀ (s : ShiftHandoffSettings) (nm uid : String),
      s.sessionHistory.length ≤ 100 →
      (addMember s nm uid).1.sessionHistory.length ≤ 100) ∧
    (∀ (s : ShiftHandoffSettings) (i : Nat),
      s.sessionHistory.length ≤ 100 →
      (removeMember s i).sessionHistory.length ≤ 100) ∧
    (runCycles 105).sessionHistory.length = 100 ∧
    (runCycles 105).sessionHistory = ((List.range 105).map recAt).drop 5 := by
  refine ⟨?_, ?_, ?_, ?_, ?_, ?_⟩
  · intro s now h
    match hcu : s.currentUser with
    | none => simpa [clockIn, hcu] using h
    | some u =>
      by_cases hu : u = ""
      · simpa [clockIn, hcu, hu] using h
      · by_cases hic : isUserClockedIn s = true
        · simpa [clockIn, hcu, hu, hic] using h
        · rw [clockIn_success s now u hcu hu (by simpa using hic)]
          exact h
  · intro s now d h
    match hex : extractFirst (matchesCurrent s.currentUser) s.activeSessions with
    | none => simpa [clockOut, hex] using h
    | some q =>
      rw [clockOut_success s now d q.1 q.2 (by rw [hex])]
      show (trimHistory (s.sessionHistory ++ [_])).length ≤ 100
      rw [length_trimHistory]
      simp only [List.length_append, List.length_cons, List.length_nil]
      split <;> omega
  · intro s nm uid h
    have heq : (addMember s nm uid).1.sessionHistory = s.sessionHistory := by
      simp only [addMember]
      split
      · rfl
      · split
        · rfl
        · rfl
    rw [heq]
    exact h
  · intro s i h
    have heq : (removeMember s i).sessionHistory = s.sessionHistory := by
      unfold removeMember
      split
      · rfl
      · rfl
    rw [heq]
    exact h
  · rw [runCycles_eq]
    show (((List.range 105).map recAt).drop (105 - 100)).length = 100
    rw [List.length_drop, List.length_map, List.length_range]
  · rw [runCycles_eq]

/-- Witness for C2: the preservation statements applied at concrete
states. -/
theorem c2_history_bound_witness :
    (clockIn demoState 0).1.sessionHistory.length ≤ 100 ∧
    (clockOut demoState 0 dBlank).1.sessionHistory.length ≤ 100 ∧
    (addMember demoState "Al B" "ab").1.sessionHistory.length ≤ 100 ∧
    (removeMember demoState 0).sessionHistory.length ≤ 100 :=
  ⟨c2_history_bound.1 demoState 0 (by decide),
   c2_history_bound.2.1 demoState 0 dBlank (by decide),
   c2_history_bound.2.2.1 demoState "Al B" "ab" (by decide),
   c2_history_bound.2.2.2.1 demoState 0 (by decide)⟩

set_option maxRecDepth 40000 in
/-- C7.  The handoff document is a pure function of the member name, the two
instants and the form data: its filename is
`folder/YYYY-MM-DD_HH-mm_memberName.md` derived from the clock-out instant at
minute granularity, and in the concrete scenario of the spec (clock-in at epoch,
clock-out 5400000 ms later, only `whatYouDid` filled) the generated body has
the fixed heading structure, duration line `1h 30m`, `What I Did` section
`Ran calibration`, and the fixed placeholder in each of the other four
sections. -/
theorem c7_document_generation :
    (∀ (s : ShiftHandoffSettings) (session : ShiftSession)
        (data : HandoffFormData),
      (genHandoffNote s session data).filename
        = s.handoffFolder ++ "/" ++ fmtYMD (session.clockOutTime.getD 0)
          ++ "_" ++ fmtHHmm (session.clockOutTime.getD 0) ++ "_"
          ++ getMemberName s session.userId ++ ".md") ∧
    ((clockOut (clockIn demoState 0).1 5400000
        ⟨"Ran calibration", "", "", "", ""⟩).1.sessionHistory.getLast?.map
      (fun rec => (genHandoffNote
        (clockOut (clockIn demoState 0).1 5400000
          ⟨"Ran calibration", "", "", "", ""⟩).1 rec
        ⟨"Ran calibration", "", "", "", ""⟩).filename)
      = some "_lab-handoffs/1970-01-01_01-30_Jane Doe.md") ∧
    ((clockOut (clockIn demoState 0).1 5400000
        ⟨"Ran calibration", "", "", "", ""⟩).1.sessionHistory.getLast?.map
      (fun rec => (genHandoffNote
        (clockOut (clockIn demoState 0).1 5400000
          ⟨"Ran calibration", "", "", "", ""⟩).1 rec
        ⟨"Ran calibration", "", "", "", ""⟩).content)
      = some ("# Shift Handoff - Jane Doe\n**Date:** January 1, 1970\n**Time:** 12:00 AM → 1:30 AM\n**Duration:** 1h 30m\n\n---\n\n## What I Did\nRan calibration\n\n## What\x27s Currently Running\n_Nothing noted_\n\n## Needs Attention\n_Nothing urgent_\n\n## Tagged for Next Shift\n_No one tagged_\n\n## Additional Notes\n_None_\n\n---\n_Generated by ELL Knowledge Builder Plugin_\n")) :=
  ⟨fun s session data => rfl, by decide, by decide⟩
